import Mathlib

/-!
Verification of the `netbox_vcenter.background_tasks` module: a shallow
embedding of its cache-key derivation, read-path dispatcher, VLAN
resolution and background inventory collection, followed by theorems
about the embedded definitions.

Conventions of the embedding:
* Python `str` is Lean `String`; byte strings are `List Nat` (each < 256).
* Machine-independent Python integers are `Nat`.
* Python dictionaries (which preserve insertion order, update in place
  on an existing key and append new keys) are ordered association lists
  `List (String × v)` manipulated through `dictSet` / `dictGet`.
* Raising an exception is modelled with `Except Unit`.
* The generic cache store is a read function `String → Option CacheVal`
  (`none` models `CacheMiss`); writes performed by the collector are
  recorded as an ordered list of `(key, value, ttl)` triples.
-/

/-! ## SHA-256 (as used by hashlib.sha256 in get_cache_key) -/

/-- Truncation to a 32-bit word. -/
def w32 (n : Nat) : Nat := n % 4294967296

/-- Right rotation of a 32-bit word by k bits (k ≤ 32, x < 2^32). -/
def rotr32 (k x : Nat) : Nat := w32 ((x >>> k) ||| (x <<< (32 - k)))

/-- SHA-256 Σ0. -/
def bsig0 (x : Nat) : Nat := Nat.xor (rotr32 2 x) (Nat.xor (rotr32 13 x) (rotr32 22 x))

/-- SHA-256 Σ1. -/
def bsig1 (x : Nat) : Nat := Nat.xor (rotr32 6 x) (Nat.xor (rotr32 11 x) (rotr32 25 x))

/-- SHA-256 σ0. -/
def ssig0 (x : Nat) : Nat := Nat.xor (rotr32 7 x) (Nat.xor (rotr32 18 x) (x >>> 3))

/-- SHA-256 σ1. -/
def ssig1 (x : Nat) : Nat := Nat.xor (rotr32 17 x) (Nat.xor (rotr32 19 x) (x >>> 10))

/-- SHA-256 Ch(x,y,z): bitwise choice, with 32-bit complement of x. -/
def chF (x y z : Nat) : Nat := Nat.xor (Nat.land x y) (Nat.land (Nat.xor x 4294967295) z)

/-- SHA-256 Maj(x,y,z). -/
def majF (x y z : Nat) : Nat := Nat.xor (Nat.land x y) (Nat.xor (Nat.land x z) (Nat.land y z))

/-- The 64 SHA-256 round constants. -/
def K256 : List Nat :=
  [1116352408, 1899447441, 3049323471, 3921009573,
   961987163, 1508970993, 2453635748, 2870763221,
   3624381080, 310598401, 607225278, 1426881987,
   1925078388, 2162078206, 2614888103, 3248222580,
   3835390401, 4022224774, 264347078, 604807628,
   770255983, 1249150122, 1555081692, 1996064986,
   2554220882, 2821834349, 2952996808, 3210313671,
   3336571891, 3584528711, 113926993, 338241895,
   666307205, 773529912, 1294757372, 1396182291,
   1695183700, 1986661051, 2177026350, 2456956037,
   2730485921, 2820302411, 3259730800, 3345764771,
   3516065817, 3600352804, 4094571909, 275423344,
   430227734, 506948616, 659060556, 883997877,
   958139571, 1322822218, 1537002063, 1747873779,
   1955562222, 2024104815, 2227730452, 2361852424,
   2428436474, 2756734187, 3204031479, 3329325298]

/-- The eight working variables of the SHA-256 compression function. -/
structure Hash8 where
  a : Nat
  b : Nat
  c : Nat
  d : Nat
  e : Nat
  f : Nat
  g : Nat
  h : Nat
deriving DecidableEq

/-- The SHA-256 initial hash value. -/
def H256init : Hash8 :=
  ⟨1779033703, 3144134277, 1013904242, 2773480762, 1359893119, 2600822924, 528734635, 1541459225⟩

/-- One SHA-256 compression round, consuming one (schedule word, constant) pair. -/
def compressStep (st : Hash8) (wk : Nat × Nat) : Hash8 :=
  let t1 := w32 (st.h + bsig1 st.e + chF st.e st.f st.g + wk.2 + wk.1)
  let t2 := w32 (bsig0 st.a + majF st.a st.b st.c)
  ⟨w32 (t1 + t2), st.a, st.b, st.c, w32 (st.d + t1), st.e, st.f, st.g⟩

/-- Append the next message-schedule word (index = current length). -/
def scheduleStep (ws : List Nat) : List Nat :=
  let n := ws.length
  ws ++ [w32 (ssig1 (ws.getD (n - 2) 0) + ws.getD (n - 7) 0 +
              ssig0 (ws.getD (n - 15) 0) + ws.getD (n - 16) 0)]

/-- Iterate `scheduleStep` k times (extending the 16 block words to 64). -/
def buildSchedule (ws : List Nat) : Nat → List Nat
  | 0 => ws
  | k + 1 => buildSchedule (scheduleStep ws) k

/-- Big-endian 4-byte groups to 32-bit words. -/
def bytesToWords : List Nat → List Nat
  | a :: b :: c :: d :: rest => (((a * 256 + b) * 256 + c) * 256 + d) :: bytesToWords rest
  | _ => []

/-- Big-endian 8-byte encoding of a length-in-bits value. -/
def lenBE8 (n : Nat) : List Nat := (List.range 8).map (fun i => (n >>> (56 - 8 * i)) % 256)

/-- SHA-256 padding: 0x80, zeros to 56 mod 64, then the 64-bit bit length. -/
def sha256Pad (msg : List Nat) : List Nat :=
  let z := (119 - msg.length % 64) % 64
  msg ++ [128] ++ List.replicate z 0 ++ lenBE8 (msg.length * 8)

/-- Split a byte list into 64-byte chunks, with explicit fuel so the
recursion is structural (the fuel never runs out when it starts at the
length of the list, since every round consumes at least one byte). -/
def chunks64F : Nat → List Nat → List (List Nat)
  | 0, _ => []
  | _, [] => []
  | fuel + 1, x :: l => (x :: l).take 64 :: chunks64F fuel ((x :: l).drop 64)

/-- Split a byte list into 64-byte chunks. -/
def chunks64 (l : List Nat) : List (List Nat) := chunks64F l.length l

/-- Process one 64-byte block against the running hash. -/
def blockStep (hs : Hash8) (block : List Nat) : Hash8 :=
  let ws := buildSchedule (bytesToWords block) 48
  let c := (ws.zip K256).foldl compressStep hs
  ⟨w32 (hs.a + c.a), w32 (hs.b + c.b), w32 (hs.c + c.c), w32 (hs.d + c.d),
   w32 (hs.e + c.e), w32 (hs.f + c.f), w32 (hs.g + c.g), w32 (hs.h + c.h)⟩

/-- SHA-256 of a byte string, as the list of the 8 final 32-bit words. -/
def sha256Words (msg : List Nat) : List Nat :=
  let H := (chunks64 (sha256Pad msg)).foldl blockStep H256init
  [H.a, H.b, H.c, H.d, H.e, H.f, H.g, H.h]

/-- Lowercase hexadecimal digit for n < 16. -/
def hexChar (n : Nat) : Char :=
  if n < 10 then Char.ofNat (48 + n) else Char.ofNat (87 + n)

/-- The sixteen lowercase hex digits. -/
def hexChars : List Char := (List.range 16).map hexChar

/-- 8-character lowercase hex rendering of a 32-bit word. -/
def wordHex (w : Nat) : List Char :=
  (List.range 8).map (fun i => hexChar ((w >>> (28 - 4 * i)) % 16))

/-- hashlib hexdigest(): the 64-character lowercase hex digest. -/
def hexdigest (msg : List Nat) : String :=
  String.mk (((sha256Words msg).map wordHex).flatten)

/-- UTF-8 encoding of one code point. -/
def utf8EncodeChar (c : Char) : List Nat :=
  let n := c.toNat
  if n < 128 then [n]
  else if n < 2048 then [192 ||| (n >>> 6), 128 ||| (n &&& 63)]
  else if n < 65536 then
    [224 ||| (n >>> 12), 128 ||| ((n >>> 6) &&& 63), 128 ||| (n &&& 63)]
  else
    [240 ||| (n >>> 18), 128 ||| ((n >>> 12) &&& 63), 128 ||| ((n >>> 6) &&& 63), 128 ||| (n &&& 63)]

/-- Python str.encode with utf-8. -/
def utf8Encode (s : String) : List Nat := (s.data.map utf8EncodeChar).flatten

/-! ## Data model: the target descriptor -/

/-- The vCenter target descriptor (the fields of ClusterVCenter that the
background-task module reads). -/
structure ClusterVCenter where
  server : String
  username : String
  password : String
  validate_certificate : Bool
deriving DecidableEq

/-- Python s[-k] on a string of length ≥ k: the one-character string
holding the k-th character from the end. -/
def strIndexNeg (s : String) (k : Nat) : String :=
  String.mk ((s.data.drop (s.data.length - k)).take 1)

/-- get_cache_key: sha256 of the tab-joined (server, username, password),
then the single character hexdigest()[-16]. -/
def get_cache_key (vcenter : ClusterVCenter) : String :=
  let raw_key := vcenter.server ++ "\t" ++ vcenter.username ++ "\t" ++ vcenter.password
  strIndexNeg (hexdigest (utf8Encode raw_key)) 16

/-! ## Python dictionaries as ordered association lists -/

/-- Python dict assignment d[k] = v: update in place if the key exists
(keys are unique in a Python dict), otherwise append at the end. -/
def dictSet {v : Type} : List (String × v) → String → v → List (String × v)
  | [], k, x => [(k, x)]
  | p :: t, k, x => if p.1 == k then (k, x) :: t else p :: dictSet t k x

/-- Python dict read d.get(k) / membership test. -/
def dictGet {v : Type} : List (String × v) → String → Option v
  | [], _ => none
  | p :: t, k => if p.1 == k then some p.2 else dictGet t k

/-! ## The value space of the shared result cache -/

/-- One NIC record appended to vm_stats['nics']. -/
structure Nic where
  label : String
  mac_address : String
  vlan : Option String
deriving DecidableEq

/-- A value stored in the vm_stats dictionary (besides the nics list). -/
inductive StatVal where
  | vnone
  | vbool (b : Bool)
  | vnat (n : Nat)
deriving DecidableEq

/-- The per-VM stats record: the ordered dict of scalar entries
(keys 'power', 'vcpus', 'memory', 'disk' initialised to None, plus
'powered_on' when written), and the nics list. -/
structure VMStats where
  entries : List (String × StatVal)
  nics : List Nic
deriving DecidableEq

/-- The all_stats dictionary written to the cache on success. -/
structure AllStats where
  timestamp : Nat
  vms : List (String × VMStats)
deriving DecidableEq

/-- A value present in the shared cache under a target's key: either the
FAILED sentinel string or a stats snapshot. -/
inductive CacheVal where
  | failed
  | snap (s : AllStats)
deriving DecidableEq

/-! ## Refresh dispatcher: get_virtual_machines -/

/-- Result of one get_virtual_machines call: the returned value and the
list of background tasks submitted via refresh_virtual_machines.delay. -/
structure GvmResult where
  ret : Option AllStats
  submitted : List ClusterVCenter
deriving DecidableEq

/-- get_virtual_machines: read path. cacheGet models cache.get, where
none models a CacheMiss being raised; vcenter none models a falsy
argument. On a hit that is not the FAILED sentinel the cached snapshot is
returned; on FAILED the function falls through and returns None; on a
miss one background task is enqueued and None is returned. -/
def get_virtual_machines (cacheGet : String → Option CacheVal)
    (vcenter : Option ClusterVCenter) : GvmResult :=
  match vcenter with
  | none => ⟨none, []⟩
  | some v =>
    match cacheGet (get_cache_key v) with
    | some CacheVal.failed => ⟨none, []⟩
    | some (CacheVal.snap s) => ⟨some s, []⟩
    | none => ⟨none, [v]⟩

/-! ## Remote topology model for VLAN resolution -/

/-- A distributed virtual switch: LookupDvPortGroup is modelled by its
portgroup association (portgroupKey ↦ configured vlanId); a key that is
absent models LookupDvPortGroup returning a null object. -/
structure Dvs where
  portgroups : List (String × Nat)
deriving DecidableEq

/-- One entry of a host's config.network.portgroup list. -/
structure HostPG where
  key : String
  vlanId : Nat
deriving DecidableEq

/-- The reachable remote endpoint content: the dvSwitchManager query
(which may raise, modelled by Except.error, or return its result, which
in pyVmomi may itself be a null object) and each host's portgroup list. -/
structure Content where
  queryDvsByUuid : String → Except Unit (Option Dvs)
  hostPortgroups : String → List HostPG

/-- Python 'needle in hay' substring test on strings. -/
def strContains (hay needle : String) : Bool :=
  containsAux needle.data hay.data
where
  containsAux (needle : List Char) : List Char → Bool
    | [] => needle.isEmpty
    | c :: t => needle.isPrefixOf (c :: t) || containsAux needle t

/-- The two NIC backing shapes distinguished by hasattr(backing, 'port'). -/
inductive Backing where
  | dvs (portgroupKey : String) (switchUuid : String)
  | standard (networkName : String)
deriving DecidableEq

/-- A VirtualEthernetCard device. -/
structure EthCard where
  label : String
  mac : String
  backing : Backing
deriving DecidableEq

/-- The collector-local memo caches threaded through one poll, plus a
count of remote QueryDvsByUuid calls performed. -/
structure NicVlanSt where
  dvsC : List (String × Option Dvs)
  pgC : List (String × List HostPG)
  dvsQueries : Nat
deriving DecidableEq

/-- Decidable equality for the Except values used in the embedding. -/
instance {e a : Type} [DecidableEq e] [DecidableEq a] : DecidableEq (Except e a) := fun x y =>
  match x, y with
  | Except.ok u, Except.ok w =>
    if h : u = w then Decidable.isTrue (by rw [h])
    else Decidable.isFalse (by intro hc; injection hc; contradiction)
  | Except.error u, Except.error w =>
    if h : u = w then Decidable.isTrue (by rw [h])
    else Decidable.isFalse (by intro hc; injection hc; contradiction)
  | Except.ok _, Except.error _ => Decidable.isFalse (by intro hc; injection hc)
  | Except.error _, Except.ok _ => Decidable.isFalse (by intro hc; injection hc)

/-- Result of one get_nic_vlan call: the vlan (Except.error models an
exception escaping the function) and the updated memo state. -/
structure NicVlanOut where
  vlan : Except Unit (Option String)
  st : NicVlanSt
deriving DecidableEq

/-- The tail of the distributed-switch branch once dvs is determined:
if dvs is truthy, LookupDvPortGroup(port_group_key) is consulted; a null
portgroup makes the subsequent .config attribute access raise. -/
def dvsBranchTail (dvs : Option Dvs) (portgroupKey : String) (st : NicVlanSt) : NicVlanOut :=
  match dvs with
  | some d =>
    match dictGet d.portgroups portgroupKey with
    | some vlanId => ⟨Except.ok (some (toString vlanId)), st⟩
    | none => ⟨Except.error (), st⟩
  | none => ⟨Except.ok none, st⟩

/-- get_nic_vlan. Distributed branch: memo-hit uses the cached switch;
on memo-miss the remote query runs, and only a non-raising query result
is written back to the memo (an exception skips the assignment). Standard
branch: the host's portgroup list is memoised, then scanned with a
substring test and no break, so a later match overwrites an earlier one. -/
def get_nic_vlan (content : Content) (st : NicVlanSt) (vmHost : String)
    (dev : EthCard) : NicVlanOut :=
  match dev.backing with
  | Backing.dvs portgroupKey switchUuid =>
    match dictGet st.dvsC switchUuid with
    | some dvs => dvsBranchTail dvs portgroupKey st
    | none =>
      match content.queryDvsByUuid switchUuid with
      | Except.ok dvs =>
        dvsBranchTail dvs portgroupKey
          { st with dvsC := dictSet st.dvsC switchUuid dvs, dvsQueries := st.dvsQueries + 1 }
      | Except.error _ =>
        dvsBranchTail none portgroupKey { st with dvsQueries := st.dvsQueries + 1 }
  | Backing.standard networkName =>
    let fetched :=
      match dictGet st.pgC vmHost with
      | some pgs => (pgs, st)
      | none =>
        let pgs := content.hostPortgroups vmHost
        (pgs, { st with pgC := dictSet st.pgC vmHost pgs })
    let vlan := fetched.1.foldl
      (fun acc p => if strContains p.key networkName then some (toString p.vlanId) else acc) none
    ⟨Except.ok vlan, fetched.2⟩

/-! ## Per-VM processing inside refresh_virtual_machines -/

/-- A hardware device reported for a VM. -/
inductive RawDevice where
  | disk (capacityInKB : Nat)
  | eth (card : EthCard)
  | other
deriving DecidableEq

/-- The raw data the remote endpoint reports for one VM. powerState is
the runtime power-state string ("" when unreported, which is falsy);
numCPU and memoryMB are 0 when unreported (falsy); readFail models a
property read raising for this VM (caught by the per-VM except). -/
structure RawVM where
  name : String
  powerState : String
  numCPU : Nat
  memoryMB : Nat
  device : List RawDevice
  host : String
  readFail : Bool
deriving DecidableEq

/-- Python 3 round(a / b) for b > 0: nearest integer, ties to even. -/
def pyRound (a b : Nat) : Nat :=
  let q := a / b
  let r := a % b
  if 2 * r < b then q
  else if 2 * r > b then q + 1
  else if q % 2 = 0 then q else q + 1

/-- The initial vm_stats dictionary (the nics entry is modelled by the
separate VMStats.nics field). -/
def vmStatsInit : List (String × StatVal) :=
  [("power", StatVal.vnone), ("vcpus", StatVal.vnone),
   ("memory", StatVal.vnone), ("disk", StatVal.vnone)]

/-- The NIC sub-loop of the per-VM try block: resolve each ethernet
card's VLAN in order, appending a Nic record; an exception from
get_nic_vlan escapes to the per-VM handler with the memo state
mutated so far. -/
def nicLoop (content : Content) (host : String) :
    List EthCard → NicVlanSt → List Nic → (Except Unit (List Nic)) × NicVlanSt
  | [], st, acc => (Except.ok acc, st)
  | card :: rest, st, acc =>
    let o := get_nic_vlan content st host card
    match o.vlan with
    | Except.error _ => (Except.error (), o.st)
    | Except.ok v =>
      nicLoop content host rest o.st (acc ++ [⟨card.label, card.mac, v⟩])

/-- Result of processing one VM: the stats (or the exception caught by
the per-VM except) and the memo state afterwards. -/
structure ProcOut where
  result : Except Unit VMStats
  st : NicVlanSt
deriving DecidableEq

/-- The ethernet cards of a VM's device list, in order. -/
def ethCards (vm : RawVM) : List EthCard :=
  vm.device.filterMap (fun d => match d with | RawDevice.eth c => some c | _ => none)

/-- The disk capacities of a VM's device list, in order. -/
def diskCaps (vm : RawVM) : List Nat :=
  vm.device.filterMap (fun d => match d with | RawDevice.disk c => some c | _ => none)

/-- The scalar entries of the vm_stats dict, built entry by entry, each
write guarded by the truthiness of the reported value. -/
def buildEntries (vm : RawVM) : List (String × StatVal) :=
  let e0 := vmStatsInit
  let e1 := if vm.powerState ≠ "" then
      dictSet e0 "powered_on" (StatVal.vbool (vm.powerState == "poweredOn")) else e0
  let e2 := if vm.numCPU ≠ 0 then dictSet e1 "vcpus" (StatVal.vnat vm.numCPU) else e1
  let e3 := if vm.memoryMB ≠ 0 then dictSet e2 "memory" (StatVal.vnat vm.memoryMB) else e2
  if diskCaps vm ≠ [] then
    dictSet e3 "disk" (StatVal.vnat (pyRound ((diskCaps vm).foldl (fun x y => x + y) 0) 1048576))
  else e3

/-- The body of the per-VM try block: build the stats dict entry by
entry, then run the NIC loop. A raising property read (readFail) escapes
before anything is computed. -/
def processVM (content : Content) (st : NicVlanSt) (vm : RawVM) : ProcOut :=
  if vm.readFail then ⟨Except.error (), st⟩
  else
    match nicLoop content vm.host (ethCards vm) st [] with
    | (Except.ok nics, st2) => ⟨Except.ok ⟨buildEntries vm, nics⟩, st2⟩
    | (Except.error _, st2) => ⟨Except.error (), st2⟩

/-! ## The background collector: refresh_virtual_machines -/

/-- The plugin configuration read from settings. -/
structure Config where
  cacheTimeout : Nat
  cacheFailureTimeout : Nat
deriving DecidableEq

/-- The remote world one collector invocation interacts with: whether
Connect / RetrieveContent / the container-view enumeration raise, the
enumerated VMs, the content handle, and the poll timestamp. -/
structure RemoteEnv where
  connectRaises : Bool
  retrieveRaises : Bool
  enumRaises : Bool
  vms : List RawVM
  content : Content
  timestamp : Nat

/-- The observable outcome of one refresh_virtual_machines invocation:
the value returned to the task runner, the cache.set calls performed in
order, and the number of connect.Disconnect calls. -/
structure RefreshOut where
  ret : Option AllStats
  cacheSets : List (String × CacheVal × Nat)
  disconnects : Nat
deriving DecidableEq

/-- State of the main VM loop: the all_stats['vms'] dict and the memo
state. -/
structure LoopSt where
  map : List (String × VMStats)
  st : NicVlanSt
deriving DecidableEq

/-- The main VM loop: a VM whose processing raised is skipped (continue)
keeping the memo mutations; a processed VM is inserted into the vms dict
under its name, overwriting an earlier VM of the same name. -/
def vmLoop (content : Content) : List RawVM → LoopSt → LoopSt
  | [], acc => acc
  | vm :: rest, acc =>
    let p := processVM content acc.st vm
    match p.result with
    | Except.error _ => vmLoop content rest ⟨acc.map, p.st⟩
    | Except.ok stats => vmLoop content rest ⟨dictSet acc.map vm.name stats, p.st⟩

/-- The big try/except/finally of refresh_virtual_machines, entered after
the early-return cache check: connect (a raise leaves service_instance
null, so no Disconnect), retrieve content and enumerate (a raise after a
successful connect still Disconnects), loop over the VMs, cache the
snapshot with the success TTL; any escaping exception caches the FAILED
sentinel with the failure TTL instead and the function returns None. -/
def collectBody (env : RemoteEnv) (cfg : Config) (key : String) : RefreshOut :=
  if env.connectRaises then
    ⟨none, [(key, CacheVal.failed, cfg.cacheFailureTimeout)], 0⟩
  else if env.retrieveRaises || env.enumRaises then
    ⟨none, [(key, CacheVal.failed, cfg.cacheFailureTimeout)], 1⟩
  else
    let final := vmLoop env.content env.vms ⟨[], ⟨[], [], 0⟩⟩
    let allStats : AllStats := ⟨env.timestamp, final.map⟩
    ⟨some allStats, [(key, CacheVal.snap allStats, cfg.cacheTimeout)], 1⟩

/-- refresh_virtual_machines: the early-return re-check of the cache
(skip when a FAILED sentinel is present and not forced; return the
cached data when anything else is present and not forced), then the
collection body. -/
def refresh_virtual_machines (env : RemoteEnv) (cacheGet : String → Option CacheVal)
    (cfg : Config) (vcenter : ClusterVCenter) (force : Bool) : RefreshOut :=
  let key := get_cache_key vcenter
  match cacheGet key with
  | some CacheVal.failed =>
    if force then collectBody env cfg key else ⟨none, [], 0⟩
  | some (CacheVal.snap s) =>
    if force then collectBody env cfg key else ⟨some s, [], 0⟩
  | none => collectBody env cfg key

/-- The per-VM outcomes of one poll in processing order: for each VM its
name and (some stats) on success or none when the per-VM except fired,
threading the memo state exactly as the main loop does. -/
def runOutcomes (content : Content) : List RawVM → NicVlanSt → List (String × Option VMStats)
  | [], _ => []
  | vm :: rest, st =>
    let p := processVM content st vm
    (vm.name, p.result.toOption) :: runOutcomes content rest p.st

/-- The stats of the last VM with the given name whose processing
succeeded, if any. -/
def lastSuccess : List (String × Option VMStats) → String → Option VMStats
  | [], _ => none
  | p :: rest, name =>
    match lastSuccess rest name with
    | some s => some s
    | none => if p.1 == name then p.2 else none

/-! ## Concrete inputs used by witnesses and counterexamples -/

/-- A sample target. -/
def vcExample : ClusterVCenter := ⟨"vcenter.example.com", "admin", "pw0", true⟩

/-- A target whose password is pw5. -/
def vcColl1 : ClusterVCenter := ⟨"vcenter.example.com", "admin", "pw5", true⟩

/-- The same server and username with password pw7. -/
def vcColl2 : ClusterVCenter := ⟨"vcenter.example.com", "admin", "pw7", true⟩

/-- A sample plugin configuration (success TTL, failure TTL). -/
def cfgEx : Config := ⟨300, 60⟩

/-- A sample cached snapshot. -/
def snapEx : AllStats := ⟨0, []⟩

/-- A content handle on which every switch query raises and every host
has no portgroups. -/
def contentEmpty : Content := ⟨fun _ => Except.error (), fun _ => []⟩

/-- A distributed switch that only knows portgroup key pgA. -/
def dvsC6 : Dvs := ⟨[("pgA", 42)]⟩

/-- A content handle knowing exactly one distributed switch, uuid-1. -/
def contentC6 : Content :=
  ⟨fun u => if u == "uuid-1" then Except.ok (some dvsC6) else Except.error (), fun _ => []⟩

/-- A NIC on the known switch uuid-1 naming a portgroup key the switch
does not have. -/
def nicMissingPG : EthCard :=
  ⟨"Network adapter 1", "00:50:56:aa:bb:01", Backing.dvs "pgMissing" "uuid-1"⟩

/-- A healthy VM whose only NIC is nicMissingPG. -/
def vmC6 : RawVM := ⟨"vm-c6", "poweredOn", 2, 1024, [RawDevice.eth nicMissingPG], "host-1", false⟩

/-- An otherwise healthy poll environment containing only vmC6. -/
def envC6 : RemoteEnv := ⟨false, false, false, [vmC6], contentC6, 111⟩

/-- A NIC on an unknown distributed switch. -/
def nicUnknownSwitch : EthCard :=
  ⟨"Network adapter 1", "00:50:56:aa:bb:02", Backing.dvs "pgA" "uuid-9"⟩

/-- A standard-backed NIC whose network name matches no host portgroup. -/
def nicNoMatch : EthCard := ⟨"Network adapter 2", "00:50:56:aa:bb:03", Backing.standard "absent-net"⟩

/-- A content handle with no known switches and one unrelated host portgroup. -/
def contentC6b : Content := ⟨fun _ => Except.error (), fun _ => [⟨"other-net", 7⟩]⟩

/-- A VM carrying nicUnknownSwitch and nicNoMatch. -/
def vmC6b : RawVM :=
  ⟨"vm-c6b", "poweredOn", 2, 1024,
   [RawDevice.eth nicUnknownSwitch, RawDevice.eth nicNoMatch], "host-1", false⟩

/-- An otherwise healthy poll environment containing only vmC6b. -/
def envC6b : RemoteEnv := ⟨false, false, false, [vmC6b], contentC6b, 222⟩

/-- Two host portgroups both containing net-A as a substring of their key. -/
def pgsC7 : List HostPG := [⟨"net-A-1", 10⟩, ⟨"net-A-2", 20⟩]

/-- A content handle serving pgsC7 for every host. -/
def contentC7 : Content := ⟨fun _ => Except.error (), fun _ => pgsC7⟩

/-- A standard-backed NIC on network net-A. -/
def nicStdC7 : EthCard := ⟨"Network adapter 1", "00:50:56:aa:bb:04", Backing.standard "net-A"⟩

/-- A NIC on distributed switch uuid-8. -/
def nicDvsC8 : EthCard := ⟨"Network adapter 1", "00:50:56:aa:bb:05", Backing.dvs "pg" "uuid-8"⟩

/-- An environment whose connection attempt raises. -/
def envFail : RemoteEnv := ⟨true, false, false, [], contentEmpty, 0⟩

/-- A VM for which the remote endpoint reports no power state, no CPU
count, no memory size, no devices. -/
def vmBare : RawVM := ⟨"vm-bare", "", 0, 0, [], "host-1", false⟩

/-- An otherwise healthy poll environment containing only vmBare. -/
def envC10 : RemoteEnv := ⟨false, false, false, [vmBare], contentEmpty, 5⟩

/-- First VM named vm-dup. -/
def vmDup1 : RawVM := ⟨"vm-dup", "poweredOn", 1, 256, [], "host-1", false⟩

/-- Second VM named vm-dup, processed later, with different stats. -/
def vmDup2 : RawVM := ⟨"vm-dup", "poweredOff", 4, 2048, [], "host-1", false⟩

/-- A VM whose property reads raise. -/
def vmBad : RawVM := ⟨"vm-bad", "poweredOn", 1, 256, [], "host-1", true⟩

/-- A healthy poll over a duplicate-name pair and a failing VM. -/
def envC5 : RemoteEnv := ⟨false, false, false, [vmDup1, vmBad, vmDup2], contentEmpty, 9⟩

/-! ## Helper lemmas -/

/-- Sanity check of the SHA-256 embedding against the FIPS 180 test
vector for the message abc. -/
theorem sha256_test_vector :
    hexdigest (utf8Encode "abc") =
      "ba7816bf8f01cfea414140de5dae2223b00361a396177a9cb410ff61f20015ad" := by
  rfl

/-- Reading a dict after an assignment: the assigned key yields the new
value, any other key is unaffected. -/
theorem dictGet_dictSet {v : Type} (d : List (String × v)) (k k2 : String) (x : v) :
    dictGet (dictSet d k x) k2 = if k2 = k then some x else dictGet d k2 := by
  induction d with
  | nil =>
    by_cases h : k2 = k
    · subst h; simp [dictSet, dictGet]
    · have hs : ¬ k = k2 := fun hh => h hh.symm
      simp [dictSet, dictGet, h, hs]
  | cons p t ih =>
    by_cases hp : p.1 = k
    · by_cases h : k2 = k
      · subst h; simp [dictSet, dictGet, hp]
      · have hs : ¬ k = k2 := fun hh => h hh.symm
        have hps : ¬ p.1 = k2 := fun hh => h (hp ▸ hh).symm
        simp [dictSet, dictGet, hp, h, hs, hps]
    · by_cases h2 : p.1 = k2
      · have hk : ¬ k2 = k := fun hh => hp (hh ▸ h2)
        simp [dictSet, dictGet, hp, h2, hk]
      · simp [dictSet, dictGet, hp, h2, ih]

/-- dvsBranchTail never changes the memo state. -/
theorem dvsBranchTail_st (d : Option Dvs) (k : String) (st : NicVlanSt) :
    (dvsBranchTail d k st).st = st := by
  cases d with
  | none => rfl
  | some dv => cases h : dictGet dv.portgroups k <;> simp [dvsBranchTail, h]

/-! ## Claim C1 -/

/-- Claim C1: get_virtual_machines implements the three-state dispatch
contract: a null target returns null; a cached Snapshot is returned with
no task submitted; the Failure sentinel yields null with no task
submitted; a cache miss enqueues exactly one collection task for that
target and yields null. The function is total: no error is returned and
no remote poll happens on the read path. -/
theorem get_virtual_machines_dispatch (cacheGet : String → Option CacheVal)
    (v : ClusterVCenter) :
    get_virtual_machines cacheGet none = ⟨none, []⟩ ∧
    (∀ s, cacheGet (get_cache_key v) = some (CacheVal.snap s) →
      get_virtual_machines cacheGet (some v) = ⟨some s, []⟩) ∧
    (cacheGet (get_cache_key v) = some CacheVal.failed →
      get_virtual_machines cacheGet (some v) = ⟨none, []⟩) ∧
    (cacheGet (get_cache_key v) = none →
      get_virtual_machines cacheGet (some v) = ⟨none, [v]⟩) := by
  refine ⟨rfl, ?_, ?_, ?_⟩
  · intro s h; simp [get_virtual_machines, h]
  · intro h; simp [get_virtual_machines, h]
  · intro h; simp [get_virtual_machines, h]

/-- Witness for C1: the dispatch contract evaluated on concrete caches. -/
theorem get_virtual_machines_dispatch_witness :
    get_virtual_machines (fun _ => some (CacheVal.snap snapEx)) (some vcExample) =
      ⟨some snapEx, []⟩ ∧
    get_virtual_machines (fun _ => some CacheVal.failed) (some vcExample) = ⟨none, []⟩ ∧
    get_virtual_machines (fun _ => none) (some vcExample) = ⟨none, [vcExample]⟩ :=
  ⟨(get_virtual_machines_dispatch (fun _ => some (CacheVal.snap snapEx)) vcExample).2.1 snapEx rfl,
   (get_virtual_machines_dispatch (fun _ => some CacheVal.failed) vcExample).2.2.1 rfl,
   (get_virtual_machines_dispatch (fun _ => none) vcExample).2.2.2 rfl⟩

/-! ## Claim C2 -/

set_option maxHeartbeats 4000000 in
/-- Claim C2 (code bug): get_cache_key is deterministic, but changing a
single field does NOT always change the output: the targets vcColl1 and
vcColl2 share server and username, differ in password, and map to the
same one-character cache key, because hexdigest()[-16] takes one
character of the digest instead of a slice. -/
theorem get_cache_key_password_collision :
    vcColl1.server = vcColl2.server ∧ vcColl1.username = vcColl2.username ∧
    vcColl1.password ≠ vcColl2.password ∧
    get_cache_key vcColl1 = get_cache_key vcColl2 ∧
    get_cache_key vcColl1 = "4" := by
  refine ⟨rfl, rfl, by decide, by rfl, by rfl⟩

/-! ## Claim C3 -/

/-- The SHA-256 word list always has 8 entries. -/
theorem sha256Words_length (m : List Nat) : (sha256Words m).length = 8 := rfl

/-- Each word renders as 8 hex characters. -/
theorem wordHex_length (w : Nat) : (wordHex w).length = 8 := by simp [wordHex]

/-- The hex digest is always 64 characters long. -/
theorem hexdigest_data_length (m : List Nat) : (hexdigest m).data.length = 64 := by
  show (((sha256Words m).map wordHex).flatten).length = 64
  rw [List.length_flatten]
  have h : ((sha256Words m).map wordHex).map List.length = List.replicate 8 8 := by
    rw [List.map_map]
    have hc : (List.length ∘ wordHex) = Function.const Nat 8 := by
      funext w; simp [Function.comp, wordHex_length, Function.const]
    rw [hc, List.map_const, sha256Words_length]
  rw [h]
  simp

/-- hexChar of a value below 16 is one of the sixteen hex digits. -/
theorem hexChar_mem (n : Nat) (h : n < 16) : hexChar n ∈ hexChars :=
  List.mem_map.mpr ⟨n, List.mem_range.mpr h, rfl⟩

/-- Every character of a hex digest is a hex digit. -/
theorem hexdigest_mem_hexChars (m : List Nat) (c : Char)
    (hc : c ∈ (hexdigest m).data) : c ∈ hexChars := by
  have hc2 : c ∈ ((sha256Words m).map wordHex).flatten := hc
  rw [List.mem_flatten] at hc2
  obtain ⟨l, hl, hcl⟩ := hc2
  rw [List.mem_map] at hl
  obtain ⟨w, hw, rfl⟩ := hl
  simp only [wordHex, List.mem_map] at hcl
  obtain ⟨i, hi, rfl⟩ := hcl
  exact hexChar_mem _ (Nat.mod_lt _ (by norm_num))

/-- Claim C3: get_cache_key always returns a string of length 1, namely
one hexadecimal digit (the 16th-from-last character of the digest), so at
most 16 distinct cache keys exist across all possible targets. -/
theorem get_cache_key_sixteen_keys (v : ClusterVCenter) :
    (get_cache_key v).length = 1 ∧
    get_cache_key v ∈ hexChars.map (fun c => String.mk [c]) := by
  have hkey : get_cache_key v = String.mk (((hexdigest (utf8Encode
      (v.server ++ "\t" ++ v.username ++ "\t" ++ v.password))).data.drop (64 - 16)).take 1) := by
    simp only [get_cache_key, strIndexNeg]
    rw [hexdigest_data_length]
  rw [hkey]
  cases hD : (hexdigest (utf8Encode
      (v.server ++ "\t" ++ v.username ++ "\t" ++ v.password))).data.drop (64 - 16) with
  | nil =>
    exfalso
    rw [List.drop_eq_nil_iff] at hD
    have h64 := hexdigest_data_length (utf8Encode
      (v.server ++ "\t" ++ v.username ++ "\t" ++ v.password))
    omega
  | cons c t =>
    have hc : c ∈ hexChars :=
      hexdigest_mem_hexChars _ c (List.mem_of_mem_drop (hD ▸ List.mem_cons_self c t))
    constructor
    · simp [String.length]
    · simp only [List.take_succ_cons, List.take_zero]
      exact List.mem_map.mpr ⟨c, hc, rfl⟩

/-- Witness for C3 at a concrete target. -/
theorem get_cache_key_sixteen_keys_witness :
    (get_cache_key vcExample).length = 1 ∧
    get_cache_key vcExample ∈ hexChars.map (fun c => String.mk [c]) :=
  get_cache_key_sixteen_keys vcExample

/-! ## Claim C4 -/

/-- When forced or on a cache miss, refresh_virtual_machines runs the
collection body. -/
theorem refresh_run_eq (env : RemoteEnv) (cacheGet : String → Option CacheVal)
    (cfg : Config) (v : ClusterVCenter) (force : Bool)
    (h : force = true ∨ cacheGet (get_cache_key v) = none) :
    refresh_virtual_machines env cacheGet cfg v force =
      collectBody env cfg (get_cache_key v) := by
  rcases h with h | h
  · subst h
    cases hc : cacheGet (get_cache_key v) with
    | none => simp [refresh_virtual_machines, hc]
    | some val => cases val <;> simp [refresh_virtual_machines, hc]
  · simp [refresh_virtual_machines, h]

/-- Claim C4: whenever an exception escapes the connection, enumeration
or VM-loop phase of a reached collection, the collector writes the FAILED
sentinel under the target's cache key with the failure TTL and returns
None; being a total function, it propagates no exception to its caller. -/
theorem refresh_failure_writes_sentinel (env : RemoteEnv)
    (cacheGet : String → Option CacheVal) (cfg : Config) (v : ClusterVCenter) (force : Bool)
    (hreach : force = true ∨ cacheGet (get_cache_key v) = none)
    (hfail : env.connectRaises = true ∨ env.retrieveRaises = true ∨ env.enumRaises = true) :
    (refresh_virtual_machines env cacheGet cfg v force).ret = none ∧
    (refresh_virtual_machines env cacheGet cfg v force).cacheSets =
      [(get_cache_key v, CacheVal.failed, cfg.cacheFailureTimeout)] := by
  rw [refresh_run_eq env cacheGet cfg v force hreach]
  unfold collectBody
  rcases hfail with h | h | h
  · simp [h]
  · cases hcr : env.connectRaises <;> simp [h, hcr]
  · cases hcr : env.connectRaises <;> simp [h, hcr]

/-- Witness for C4: a raising connection on a cache miss. -/
theorem refresh_failure_writes_sentinel_witness :
    (refresh_virtual_machines envFail (fun _ => none) cfgEx vcExample false).ret = none ∧
    (refresh_virtual_machines envFail (fun _ => none) cfgEx vcExample false).cacheSets =
      [(get_cache_key vcExample, CacheVal.failed, cfgEx.cacheFailureTimeout)] :=
  refresh_failure_writes_sentinel envFail (fun _ => none) cfgEx vcExample false
    (Or.inr rfl) (Or.inl rfl)

/-! ## Claim C9 -/

/-- Claim C9: connect.Disconnect is called exactly once per invocation
that established a connection (the collection body was reached and
Connect did not raise), and never otherwise — independent of whether the
poll succeeded, a per-VM error occurred, or the poll aborted. -/
theorem refresh_disconnect_exactly_once (env : RemoteEnv)
    (cacheGet : String → Option CacheVal) (cfg : Config) (v : ClusterVCenter) (force : Bool) :
    (refresh_virtual_machines env cacheGet cfg v force).disconnects =
      if (force || (cacheGet (get_cache_key v)).isNone) && !env.connectRaises then 1 else 0 := by
  cases hc : cacheGet (get_cache_key v) with
  | none =>
    rw [refresh_run_eq env cacheGet cfg v force (Or.inr hc)]
    unfold collectBody
    cases hcr : env.connectRaises <;> cases force <;>
      simp [hcr, apply_ite RefreshOut.disconnects]
  | some val =>
    cases force with
    | false => cases val <;> simp [refresh_virtual_machines, hc]
    | true =>
      rw [refresh_run_eq env cacheGet cfg v true (Or.inl rfl)]
      unfold collectBody
      cases hcr : env.connectRaises <;> simp [hcr, apply_ite RefreshOut.disconnects]

/-- Witness for C9: one Disconnect on a completed poll, none when the
connection attempt itself raised. -/
theorem refresh_disconnect_exactly_once_witness :
    (refresh_virtual_machines envC5 (fun _ => none) cfgEx vcExample false).disconnects = 1 ∧
    (refresh_virtual_machines envFail (fun _ => none) cfgEx vcExample false).disconnects = 0 := by
  constructor
  · have h := refresh_disconnect_exactly_once envC5 (fun _ => none) cfgEx vcExample false
    simpa [envC5] using h
  · have h := refresh_disconnect_exactly_once envFail (fun _ => none) cfgEx vcExample false
    simpa [envFail] using h

/-! ## Claim C5 -/

/-- Lookup in the map built by the main VM loop: the last successful
outcome for the name wins, falling back to the accumulator's map.
This is the generalised invariant behind claim C5. -/
theorem vmLoop_lookup (content : Content) (vms : List RawVM) (acc : LoopSt) (name : String) :
    dictGet (vmLoop content vms acc).map name =
      (lastSuccess (runOutcomes content vms acc.st) name).or (dictGet acc.map name) := by
  induction vms generalizing acc with
  | nil => simp [vmLoop, runOutcomes, lastSuccess, Option.none_or]
  | cons vm rest ih =>
    cases hp : (processVM content acc.st vm).result with
    | error e =>
      have hL : vmLoop content (vm :: rest) acc =
          vmLoop content rest ⟨acc.map, (processVM content acc.st vm).st⟩ := by
        simp [vmLoop, hp]
      have hR : runOutcomes content (vm :: rest) acc.st =
          (vm.name, none) :: runOutcomes content rest (processVM content acc.st vm).st := by
        simp [runOutcomes, hp, Except.toOption]
      rw [hL, hR, ih]
      simp only [lastSuccess]
      cases hls : lastSuccess (runOutcomes content rest (processVM content acc.st vm).st) name with
      | some s => simp
      | none => simp [ite_self]
    | ok stats =>
      have hL : vmLoop content (vm :: rest) acc =
          vmLoop content rest ⟨dictSet acc.map vm.name stats, (processVM content acc.st vm).st⟩ := by
        simp [vmLoop, hp]
      have hR : runOutcomes content (vm :: rest) acc.st =
          (vm.name, some stats) :: runOutcomes content rest (processVM content acc.st vm).st := by
        simp [runOutcomes, hp, Except.toOption]
      rw [hL, hR, ih]
      simp only [lastSuccess]
      cases hls : lastSuccess (runOutcomes content rest (processVM content acc.st vm).st) name with
      | some s => simp
      | none =>
        simp only [Option.none_or]
        rw [dictGet_dictSet]
        by_cases hn : name = vm.name
        · subst hn; simp [Option.or]
        · have hn2 : ¬ vm.name = name := fun hh => hn hh.symm
          simp [hn, hn2, Option.none_or]

/-- Claim C5: a reached poll with a working connection and enumeration
always produces a Snapshot; its vms mapping holds exactly the VMs whose
per-VM stats extraction succeeded during the run, a failing VM being
skipped without aborting the poll, and a duplicate name resolving to the
stats of the last successfully processed VM of that name. -/
theorem refresh_snapshot_exact (env : RemoteEnv) (cacheGet : String → Option CacheVal)
    (cfg : Config) (v : ClusterVCenter) (force : Bool)
    (hreach : force = true ∨ cacheGet (get_cache_key v) = none)
    (hok : env.connectRaises = false) (hr : env.retrieveRaises = false)
    (he : env.enumRaises = false) :
    ∃ S : AllStats,
      (refresh_virtual_machines env cacheGet cfg v force).ret = some S ∧
      (refresh_virtual_machines env cacheGet cfg v force).cacheSets =
        [(get_cache_key v, CacheVal.snap S, cfg.cacheTimeout)] ∧
      ∀ name, dictGet S.vms name =
        lastSuccess (runOutcomes env.content env.vms ⟨[], [], 0⟩) name := by
  rw [refresh_run_eq env cacheGet cfg v force hreach]
  refine ⟨⟨env.timestamp, (vmLoop env.content env.vms ⟨[], ⟨[], [], 0⟩⟩).map⟩, ?_, ?_, ?_⟩
  · simp [collectBody, hok, hr, he]
  · simp [collectBody, hok, hr, he]
  · intro name
    have h := vmLoop_lookup env.content env.vms ⟨[], ⟨[], [], 0⟩⟩ name
    simpa [dictGet, Option.or_none] using h

/-- Witness for C5: a poll over a duplicate-name pair and a failing VM. -/
theorem refresh_snapshot_exact_witness :
    ∃ S : AllStats,
      (refresh_virtual_machines envC5 (fun _ => none) cfgEx vcExample false).ret = some S ∧
      (refresh_virtual_machines envC5 (fun _ => none) cfgEx vcExample false).cacheSets =
        [(get_cache_key vcExample, CacheVal.snap S, cfgEx.cacheTimeout)] ∧
      ∀ name, dictGet S.vms name =
        lastSuccess (runOutcomes envC5.content envC5.vms ⟨[], [], 0⟩) name :=
  refresh_snapshot_exact envC5 (fun _ => none) cfgEx vcExample false (Or.inr rfl) rfl rfl rfl

/-! ## Claim C6 -/

/-- The portgroup scan leaves its accumulator unchanged over a list with
no textual match. -/
theorem pgScan_no_match (netName : String) :
    ∀ (l : List HostPG) (acc : Option String),
      (∀ q ∈ l, strContains q.key netName = false) →
      l.foldl (fun a p => if strContains p.key netName then some (toString p.vlanId) else a)
        acc = acc := by
  intro l
  induction l with
  | nil => intro acc h; rfl
  | cons q t ih =>
    intro acc h
    rw [List.foldl_cons]
    have hq := h q (List.mem_cons_self q t)
    simp only [hq, Bool.false_eq_true, if_false]
    exact ih acc (fun r hr => h r (List.mem_cons_of_mem _ hr))

set_option maxHeartbeats 4000000 in
/-- Claim C6 (counterexample): a NIC on a known distributed switch whose
portgroup key the switch does not have makes get_nic_vlan raise (the
null portgroup's .config access), and the enclosing, otherwise healthy
VM is excluded from the snapshot instead of appearing without a vlanId. -/
theorem get_nic_vlan_known_switch_missing_pg_raises :
    (get_nic_vlan contentC6 ⟨[], [], 0⟩ "host-1" nicMissingPG).vlan = Except.error () ∧
    (refresh_virtual_machines envC6 (fun _ => none) cfgEx vcExample false).ret =
      some ⟨111, []⟩ := by
  exact ⟨by decide, by decide⟩

set_option maxHeartbeats 4000000 in
/-- Claim C6 (amended): a NIC whose backing matches nothing yields an
absent vlanId without raising when the distributed switch is unknown
(the remote lookup raised, or a null switch was memoised) or when no
host portgroup key contains the standard backing's network name, and
such VMs keep their other fields in the snapshot (shown on envC6b); but
a dvs-backed NIC whose known switch lacks the portgroup key raises,
excluding the whole VM. -/
theorem get_nic_vlan_absent_cases (content : Content) (st : NicVlanSt)
    (host lbl mac pgKey uuid netName : String) :
    (dictGet st.dvsC uuid = none → content.queryDvsByUuid uuid = Except.error () →
      (get_nic_vlan content st host ⟨lbl, mac, Backing.dvs pgKey uuid⟩).vlan = Except.ok none) ∧
    (dictGet st.dvsC uuid = some none →
      (get_nic_vlan content st host ⟨lbl, mac, Backing.dvs pgKey uuid⟩).vlan = Except.ok none) ∧
    ((∀ q ∈ content.hostPortgroups host, strContains q.key netName = false) →
      dictGet st.pgC host = none →
      (get_nic_vlan content st host ⟨lbl, mac, Backing.standard netName⟩).vlan =
        Except.ok none) ∧
    (∀ d : Dvs, dictGet st.dvsC uuid = some (some d) → dictGet d.portgroups pgKey = none →
      (get_nic_vlan content st host ⟨lbl, mac, Backing.dvs pgKey uuid⟩).vlan =
        Except.error ()) ∧
    (refresh_virtual_machines envC6b (fun _ => none) cfgEx vcExample false).ret =
      some ⟨222, [("vm-c6b", ⟨[("power", StatVal.vnone), ("vcpus", StatVal.vnat 2),
        ("memory", StatVal.vnat 1024), ("disk", StatVal.vnone),
        ("powered_on", StatVal.vbool true)],
        [⟨"Network adapter 1", "00:50:56:aa:bb:02", none⟩,
         ⟨"Network adapter 2", "00:50:56:aa:bb:03", none⟩]⟩)]⟩ := by
  refine ⟨?_, ?_, ?_, ?_, by decide⟩
  · intro h1 h2
    simp [get_nic_vlan, h1, h2, dvsBranchTail]
  · intro h1
    simp [get_nic_vlan, h1, dvsBranchTail]
  · intro hall h1
    simp only [get_nic_vlan, h1]
    rw [pgScan_no_match netName (content.hostPortgroups host) none hall]
  · intro d h1 h2
    simp [get_nic_vlan, h1, dvsBranchTail, h2]

/-- Witness for the amended C6 at concrete topologies. -/
theorem get_nic_vlan_absent_cases_witness :
    (get_nic_vlan contentC6b ⟨[], [], 0⟩ "host-1" nicUnknownSwitch).vlan = Except.ok none ∧
    (get_nic_vlan contentC6b ⟨[], [], 0⟩ "host-1" nicNoMatch).vlan = Except.ok none ∧
    (get_nic_vlan contentC6 ⟨[("uuid-1", some dvsC6)], [], 0⟩ "host-1" nicMissingPG).vlan =
      Except.error () := by
  refine ⟨?_, ?_, ?_⟩
  · exact (get_nic_vlan_absent_cases contentC6b ⟨[], [], 0⟩ "host-1" "Network adapter 1"
      "00:50:56:aa:bb:02" "pgA" "uuid-9" "x").1 rfl rfl
  · exact (get_nic_vlan_absent_cases contentC6b ⟨[], [], 0⟩ "host-1" "Network adapter 2"
      "00:50:56:aa:bb:03" "p" "u" "absent-net").2.2.1 (by decide) rfl
  · exact (get_nic_vlan_absent_cases contentC6 ⟨[("uuid-1", some dvsC6)], [], 0⟩ "host-1"
      "Network adapter 1" "00:50:56:aa:bb:01" "pgMissing" "uuid-1" "x").2.2.2.1 dvsC6 rfl rfl

/-! ## Claim C7 -/

/-- Claim C7 (counterexample): both portgroups of pgsC7 contain net-A in
their key, yet get_nic_vlan returns the VLAN of the SECOND one: the scan
has no break, so the first textual match does not win. -/
theorem get_nic_vlan_first_match_refuted :
    strContains "net-A-1" "net-A" = true ∧
    strContains "net-A-2" "net-A" = true ∧
    (get_nic_vlan contentC7 ⟨[], [], 0⟩ "host-1" nicStdC7).vlan = Except.ok (some "20") ∧
    (get_nic_vlan contentC7 ⟨[], [], 0⟩ "host-1" nicStdC7).vlan ≠ Except.ok (some "10") := by
  exact ⟨by decide, by decide, by decide, by decide⟩

/-- Claim C7 (amended): on a standard-switch NIC the scan returns the
configured VLAN id (as a string) of the LAST portgroup in list order
whose key contains the network name as a substring. -/
theorem get_nic_vlan_last_match (content : Content) (st : NicVlanSt)
    (host lbl mac netName : String) (l1 : List HostPG) (p : HostPG) (l2 : List HostPG)
    (hmemo : dictGet st.pgC host = none)
    (hpgs : content.hostPortgroups host = l1 ++ p :: l2)
    (hp : strContains p.key netName = true)
    (h2 : ∀ q ∈ l2, strContains q.key netName = false) :
    (get_nic_vlan content st host ⟨lbl, mac, Backing.standard netName⟩).vlan =
      Except.ok (some (toString p.vlanId)) := by
  simp only [get_nic_vlan, hmemo, hpgs]
  rw [List.foldl_append, List.foldl_cons]
  simp only [hp, if_true]
  rw [pgScan_no_match netName l2 _ h2]

/-- Witness for the amended C7: two matches, the later one (VLAN 20) wins. -/
theorem get_nic_vlan_last_match_witness :
    (get_nic_vlan contentC7 ⟨[], [], 0⟩ "host-1" nicStdC7).vlan = Except.ok (some "20") := by
  exact get_nic_vlan_last_match contentC7 ⟨[], [], 0⟩ "host-1" "Network adapter 1"
    "00:50:56:aa:bb:04" "net-A" [⟨"net-A-1", 10⟩] ⟨"net-A-2", 20⟩ [] rfl rfl
    (by decide) (by decide)

/-! ## Claim C8 -/

/-- Claim C8 (counterexample): after a raising switch lookup nothing is
stored in the dvs memo (the dict assignment is skipped by the
exception), so a second NIC naming the same switch identifier performs a
second remote query within the same poll. -/
theorem dvs_failed_lookup_not_cached :
    (get_nic_vlan contentEmpty ⟨[], [], 0⟩ "host-1" nicDvsC8).st.dvsC = [] ∧
    (get_nic_vlan contentEmpty
      ((get_nic_vlan contentEmpty ⟨[], [], 0⟩ "host-1" nicDvsC8).st)
      "host-1" nicDvsC8).st.dvsQueries = 2 := by
  exact ⟨by decide, by decide⟩

/-- Claim C8 (amended): the dvs memo stores only the results of
non-raising lookups. A memo miss with a raising query leaves the memo
unchanged (and counts one remote query, so the next NIC with the same
identifier queries again); a memo miss with a successful query stores
its result; a memo hit performs no remote query and changes nothing. -/
theorem get_nic_vlan_memoisation (content : Content) (st : NicVlanSt)
    (host lbl mac pgKey uuid : String) :
    (content.queryDvsByUuid uuid = Except.error () → dictGet st.dvsC uuid = none →
      (get_nic_vlan content st host ⟨lbl, mac, Backing.dvs pgKey uuid⟩).st.dvsC = st.dvsC ∧
      (get_nic_vlan content st host ⟨lbl, mac, Backing.dvs pgKey uuid⟩).st.dvsQueries =
        st.dvsQueries + 1) ∧
    (∀ dvs, content.queryDvsByUuid uuid = Except.ok dvs → dictGet st.dvsC uuid = none →
      (get_nic_vlan content st host ⟨lbl, mac, Backing.dvs pgKey uuid⟩).st.dvsC =
        dictSet st.dvsC uuid dvs ∧
      (get_nic_vlan content st host ⟨lbl, mac, Backing.dvs pgKey uuid⟩).st.dvsQueries =
        st.dvsQueries + 1) ∧
    (∀ dvs, dictGet st.dvsC uuid = some dvs →
      (get_nic_vlan content st host ⟨lbl, mac, Backing.dvs pgKey uuid⟩).st = st) := by
  refine ⟨?_, ?_, ?_⟩
  · intro hq hm
    constructor <;> simp [get_nic_vlan, hm, hq, dvsBranchTail_st]
  · intro dvs hq hm
    constructor <;> simp [get_nic_vlan, hm, hq, dvsBranchTail_st]
  · intro dvs hm
    simp [get_nic_vlan, hm, dvsBranchTail_st]

/-- Witness for the amended C8: failure not stored, success stored, hit
untouched. -/
theorem get_nic_vlan_memoisation_witness :
    (get_nic_vlan contentEmpty ⟨[], [], 0⟩ "host-1" nicDvsC8).st.dvsC = [] ∧
    (get_nic_vlan contentC6 ⟨[], [], 0⟩ "host-1" nicMissingPG).st.dvsC =
      [("uuid-1", some dvsC6)] ∧
    (get_nic_vlan contentC6 ⟨[("uuid-1", some dvsC6)], [], 0⟩ "host-1" nicMissingPG).st =
      ⟨[("uuid-1", some dvsC6)], [], 0⟩ := by
  refine ⟨((get_nic_vlan_memoisation contentEmpty ⟨[], [], 0⟩ "host-1" "Network adapter 1"
      "00:50:56:aa:bb:05" "pg" "uuid-8").1 rfl rfl).1, ?_, ?_⟩
  · have h := ((get_nic_vlan_memoisation contentC6 ⟨[], [], 0⟩ "host-1" "Network adapter 1"
      "00:50:56:aa:bb:01" "pgMissing" "uuid-1").2.1 (some dvsC6) rfl rfl).1
    simpa [dictSet] using h
  · exact (get_nic_vlan_memoisation contentC6 ⟨[("uuid-1", some dvsC6)], [], 0⟩ "host-1"
      "Network adapter 1" "00:50:56:aa:bb:01" "pgMissing" "uuid-1").2.2 (some dvsC6) rfl

/-! ## Claim C10 -/

set_option maxHeartbeats 4000000 in
/-- Claim C10 (counterexample): for a VM for which the remote endpoint
reported nothing, the snapshot's stats record still CONTAINS the keys
vcpus, memory and disk, each present with the null value (they are
initialised to None and never deleted), instead of being absent. -/
theorem vm_stats_unreported_present_null :
    (refresh_virtual_machines envC10 (fun _ => none) cfgEx vcExample false).ret =
      some ⟨5, [("vm-bare", ⟨vmStatsInit, []⟩)]⟩ ∧
    dictGet vmStatsInit "vcpus" = some StatVal.vnone ∧
    dictGet vmStatsInit "memory" = some StatVal.vnone ∧
    dictGet vmStatsInit "disk" = some StatVal.vnone ∧
    dictGet vmStatsInit "powered_on" = none := by
  exact ⟨by decide, by decide, by decide, by decide, by decide⟩

/-- Reading each scalar key out of the entry-building chain. -/
theorem buildEntries_get (vm : RawVM) :
    (dictGet (buildEntries vm) "powered_on" =
      if vm.powerState ≠ "" then some (StatVal.vbool (vm.powerState == "poweredOn"))
      else none) ∧
    (dictGet (buildEntries vm) "vcpus" =
      if vm.numCPU ≠ 0 then some (StatVal.vnat vm.numCPU) else some StatVal.vnone) ∧
    (dictGet (buildEntries vm) "memory" =
      if vm.memoryMB ≠ 0 then some (StatVal.vnat vm.memoryMB) else some StatVal.vnone) ∧
    (dictGet (buildEntries vm) "disk" =
      if diskCaps vm ≠ [] then
        some (StatVal.vnat (pyRound ((diskCaps vm).foldl (fun x y => x + y) 0) 1048576))
      else some StatVal.vnone) := by
  unfold buildEntries
  by_cases h1 : vm.powerState ≠ "" <;> by_cases h2 : vm.numCPU ≠ 0 <;>
    by_cases h3 : vm.memoryMB ≠ 0 <;> by_cases h4 : diskCaps vm ≠ [] <;>
    simp [h1, h2, h3, h4, dictGet_dictSet, vmStatsInit, dictGet, dictSet]

/-- Claim C10 (amended): in every successfully processed VM's stats
record, the powered_on key is genuinely absent when the power state is
unreported; the vcpus, memory and disk keys are always present — holding
the null marker when the remote object reported no value (a falsy power
state, CPU count or memory size, or an empty disk list) and the reported
value otherwise. -/
theorem processVM_optional_fields (content : Content) (st : NicVlanSt) (vm : RawVM)
    (s : VMStats) (hok : (processVM content st vm).result = Except.ok s) :
    (vm.powerState = "" → dictGet s.entries "powered_on" = none) ∧
    (vm.powerState ≠ "" → dictGet s.entries "powered_on" =
      some (StatVal.vbool (vm.powerState == "poweredOn"))) ∧
    (vm.numCPU = 0 → dictGet s.entries "vcpus" = some StatVal.vnone) ∧
    (vm.numCPU ≠ 0 → dictGet s.entries "vcpus" = some (StatVal.vnat vm.numCPU)) ∧
    (vm.memoryMB = 0 → dictGet s.entries "memory" = some StatVal.vnone) ∧
    (vm.memoryMB ≠ 0 → dictGet s.entries "memory" = some (StatVal.vnat vm.memoryMB)) ∧
    (diskCaps vm = [] → dictGet s.entries "disk" = some StatVal.vnone) ∧
    (diskCaps vm ≠ [] → dictGet s.entries "disk" =
      some (StatVal.vnat (pyRound ((diskCaps vm).foldl (fun x y => x + y) 0) 1048576))) := by
  have hent : s.entries = buildEntries vm := by
    by_cases hrf : vm.readFail
    · simp [processVM, hrf] at hok
    · simp only [processVM, hrf, if_false] at hok
      cases hn : nicLoop content vm.host (ethCards vm) st [] with
      | mk res st2 =>
        cases res with
        | error e => rw [hn] at hok; simp at hok
        | ok nics =>
          rw [hn] at hok
          simp at hok
          rw [← hok]
  obtain ⟨g1, g2, g3, g4⟩ := buildEntries_get vm
  refine ⟨?_, ?_, ?_, ?_, ?_, ?_, ?_, ?_⟩ <;> intro h <;> rw [hent]
  · rw [g1]; simp [h]
  · rw [g1]; simp [h]
  · rw [g2]; simp [h]
  · rw [g2]; simp [h]
  · rw [g3]; simp [h]
  · rw [g3]; simp [h]
  · rw [g4]; simp [h]
  · rw [g4]; simp [h]

/-- Witness for the amended C10: a VM reporting nothing and a VM
reporting everything. -/
theorem processVM_optional_fields_witness :
    dictGet (⟨vmStatsInit, []⟩ : VMStats).entries "powered_on" = none ∧
    dictGet (⟨vmStatsInit, []⟩ : VMStats).entries "vcpus" = some StatVal.vnone ∧
    dictGet (⟨buildEntries vmDup2, []⟩ : VMStats).entries "vcpus" =
      some (StatVal.vnat 4) := by
  have hbare := processVM_optional_fields contentEmpty ⟨[], [], 0⟩ vmBare
    ⟨vmStatsInit, []⟩ (by decide)
  have hfull := processVM_optional_fields contentEmpty ⟨[], [], 0⟩ vmDup2
    ⟨buildEntries vmDup2, []⟩ (by decide)
  exact ⟨hbare.1 rfl, hbare.2.2.1 rfl, hfull.2.2.2.1 (by decide)⟩
